import Mathlib

/-!
Verification of the request-contract schemas of ClaudeDesktopCommander
(schemas.ts) and of the Terminal Session Manager its specification
describes.  The schemas are `z.object` declarations from the zod library;
we embed the fragment of zod they use: objects with required/optional
fields of type string, number, any, array-of-string and record-of-any,
validated against JSON-like input values, with unknown keys stripped
(zod's default non-strict behaviour).  JSON numbers are modelled as
rationals, which covers negative, zero and non-integer finite values.
-/

/-- A JSON-like input value, as received by a tool-call request. -/
inductive JsonValue where
  | null : JsonValue
  | bool (b : Bool) : JsonValue
  | num (q : Rat) : JsonValue
  | str (s : String) : JsonValue
  | arr (xs : List JsonValue) : JsonValue
  | obj (fields : List (String × JsonValue)) : JsonValue

/-- The zod value types that appear in schemas.ts: `z.string()`,
`z.number()`, `z.any()`, `z.array(z.string())`, `z.record(z.any())`. -/
inductive ZodType where
  | zstring : ZodType
  | znumber : ZodType
  | zany : ZodType
  | zstringArray : ZodType
  | zanyRecord : ZodType
deriving DecidableEq

/-- A `z.object` schema: declared field name, its zod type, and whether it
carries `.optional()`. -/
abbrev ZodObjectSchema : Type := List (String × ZodType × Bool)

/-- Is this JSON value a string? -/
def isStrVal : JsonValue → Bool
  | JsonValue.str _ => true
  | _ => false

/-- Does a JSON value conform to a zod value type?  `z.any()` accepts
everything; `z.array(z.string())` demands a JSON array of strings;
`z.record(z.any())` demands a JSON object. -/
def validateValue (t : ZodType) (v : JsonValue) : Bool :=
  match t with
  | ZodType.zstring => isStrVal v
  | ZodType.znumber => match v with
      | JsonValue.num _ => true
      | _ => false
  | ZodType.zany => true
  | ZodType.zstringArray => match v with
      | JsonValue.arr xs => xs.all isStrVal
      | _ => false
  | ZodType.zanyRecord => match v with
      | JsonValue.obj _ => true
      | _ => false

/-- In zod, a `z.any()` field accepts `undefined` and is therefore
effectively optional even without `.optional()`. -/
def isOptionalType : ZodType → Bool
  | ZodType.zany => true
  | _ => false

/-- First binding of a key in a JSON object's field list (JS objects have
unique keys; we take the first occurrence). -/
def lookupField (name : String) : List (String × JsonValue) → Option JsonValue
  | [] => none
  | p :: rest => if p.1 = name then some p.2 else lookupField name rest

/-- Check one declared field of a `z.object` schema against the input's
fields: an absent key passes iff the field is optional (or of type
`z.any()`); a present key must conform to the declared type. -/
def checkField (fields : List (String × JsonValue)) (spec : String × ZodType × Bool) : Bool :=
  match lookupField spec.1 fields with
  | none => spec.2.2 || isOptionalType spec.2.1
  | some v => validateValue spec.2.1 v

/-- `z.object(...).safeParse` success, for the zod fragment in use: the
input must be a JSON object, every declared field must check out, and
unknown keys are stripped, never rejected (zod's default). -/
def validateObj (specs : ZodObjectSchema) (v : JsonValue) : Bool :=
  match v with
  | JsonValue.obj fields => specs.all (checkField fields)
  | _ => false

/-! ## The schemas of schemas.ts, transcribed field for field. -/

def GetConfigArgsSchema : ZodObjectSchema := []

def GetConfigValueArgsSchema : ZodObjectSchema :=
  [("key", ZodType.zstring, false)]

def SetConfigValueArgsSchema : ZodObjectSchema :=
  [("key", ZodType.zstring, false), ("value", ZodType.zany, false)]

def UpdateConfigArgsSchema : ZodObjectSchema :=
  [("config", ZodType.zanyRecord, false)]

def ExecuteCommandArgsSchema : ZodObjectSchema :=
  [("command", ZodType.zstring, false),
   ("timeout_ms", ZodType.znumber, true),
   ("shell", ZodType.zstring, true)]

def ReadOutputArgsSchema : ZodObjectSchema :=
  [("pid", ZodType.znumber, false)]

def ForceTerminateArgsSchema : ZodObjectSchema :=
  [("pid", ZodType.znumber, false)]

def ListSessionsArgsSchema : ZodObjectSchema := []

def KillProcessArgsSchema : ZodObjectSchema :=
  [("pid", ZodType.znumber, false)]

def BlockCommandArgsSchema : ZodObjectSchema :=
  [("command", ZodType.zstring, false)]

def UnblockCommandArgsSchema : ZodObjectSchema :=
  [("command", ZodType.zstring, false)]

def ReadFileArgsSchema : ZodObjectSchema :=
  [("path", ZodType.zstring, false)]

def ReadMultipleFilesArgsSchema : ZodObjectSchema :=
  [("paths", ZodType.zstringArray, false)]

def WriteFileArgsSchema : ZodObjectSchema :=
  [("path", ZodType.zstring, false), ("content", ZodType.zstring, false)]

def CreateDirectoryArgsSchema : ZodObjectSchema :=
  [("path", ZodType.zstring, false)]

def ListDirectoryArgsSchema : ZodObjectSchema :=
  [("path", ZodType.zstring, false)]

def MoveFileArgsSchema : ZodObjectSchema :=
  [("source", ZodType.zstring, false), ("destination", ZodType.zstring, false)]

def SearchFilesArgsSchema : ZodObjectSchema :=
  [("path", ZodType.zstring, false), ("pattern", ZodType.zstring, false)]

def GetFileInfoArgsSchema : ZodObjectSchema :=
  [("path", ZodType.zstring, false)]

def EditBlockArgsSchema : ZodObjectSchema :=
  [("blockContent", ZodType.zstring, false)]

/-- All request contracts declared in schemas.ts. -/
def allSchemas : List ZodObjectSchema :=
  [GetConfigArgsSchema, GetConfigValueArgsSchema, SetConfigValueArgsSchema,
   UpdateConfigArgsSchema, ExecuteCommandArgsSchema, ReadOutputArgsSchema,
   ForceTerminateArgsSchema, ListSessionsArgsSchema, KillProcessArgsSchema,
   BlockCommandArgsSchema, UnblockCommandArgsSchema, ReadFileArgsSchema,
   ReadMultipleFilesArgsSchema, WriteFileArgsSchema, CreateDirectoryArgsSchema,
   ListDirectoryArgsSchema, MoveFileArgsSchema, SearchFilesArgsSchema,
   GetFileInfoArgsSchema, EditBlockArgsSchema]

/-- The keys a schema declares. -/
def declaredKeys (specs : ZodObjectSchema) : List String :=
  specs.map (fun spec => spec.1)

/-! ## Terminal Session Manager (spec sections 3 to 5)

The session-manager implementation is not among the visible sources; the
spec is its authority here.  Every definition below is modelled from the
spec's words. -/

/-- Modelled from the spec: the session status values of the data model,
`running`, `completed`, `timedOut`, `terminated`, `failed`. -/
inductive Status where
  | running : Status
  | completed : Status
  | failed : Status
  | timedOut : Status
  | terminated : Status
deriving DecidableEq

/-- Modelled from the spec: `completed`, `failed`, `timedOut`,
`terminated` are terminal; `running` is not. -/
def Status.isTerminal : Status → Bool
  | Status.running => false
  | _ => true

/-- Modelled from the spec: the error taxonomy of section 7 (the part the
session-manager operations below return synchronously). -/
inductive SMError where
  | invalidArgument : SMError
  | notFound : SMError
  | invalidTransition : SMError
deriving DecidableEq

/-- Modelled from the spec: a Session record of the data model (section 3).
The output buffer is the ordered sequence of captured bytes, `readCursor`
the offset already delivered to callers. -/
structure Session where
  sid : Nat
  command : String
  shell : String
  createdAt : Nat
  status : Status
  exitCode : Option Int
  outputBuffer : List Char
  readCursor : Nat
  timeoutDeadline : Option Nat

/-- Modelled from the spec: the state machine of section 4.2 — `running`
may move to each of the four terminal states, and nothing else moves. -/
def allowedTransition : Status → Status → Bool
  | Status.running, Status.completed => true
  | Status.running, Status.failed => true
  | Status.running, Status.timedOut => true
  | Status.running, Status.terminated => true
  | _, _ => false

/-- Modelled from the spec: `transition(id, newStatus, exitCode?)` moves a
record along the state machine and fails with `InvalidTransition` when
`newStatus` is not reachable from the current status. -/
def Session.transition (s : Session) (new : Status) (code : Option Int) :
    Except SMError Session :=
  if allowedTransition s.status new then
    Except.ok { s with status := new, exitCode := code }
  else
    Except.error SMError.invalidTransition

/-- Modelled from the spec: `appendOutput(id, chunk)` appends to the
output buffer, and is a no-op (with a logged warning) once the session is
terminal. -/
def Session.appendOutput (s : Session) (chunk : List Char) : Session :=
  if s.status.isTerminal then s
  else { s with outputBuffer := s.outputBuffer ++ chunk }

/-- Modelled from the spec: the Output Reader's `read(id)` returns
everything in the output buffer from `readCursor` onward together with the
current status, and advances `readCursor` to the end of what was
returned. -/
def Session.read (s : Session) : (List Char × Status) × Session :=
  ((s.outputBuffer.drop s.readCursor, s.status),
   { s with readCursor := s.outputBuffer.length })

/-- Modelled from the spec: the Session Registry, the authoritative map of
sessions plus the monotonically increasing generation counter used to
build fresh identifiers. -/
structure Registry where
  sessions : List (Nat × Session)
  nextId : Nat

/-- Modelled from the spec: `create(command, shell, timeout)` allocates a
fresh identifier and inserts a record in `running` state; it fails with
`InvalidArgument` if `command` is empty. -/
def Registry.create (r : Registry) (command shell : String)
    (timeout : Option Nat) (now : Nat) : Except SMError (Nat × Registry) :=
  if command = "" then Except.error SMError.invalidArgument
  else
    Except.ok (r.nextId,
      { sessions := (r.nextId,
          { sid := r.nextId, command := command, shell := shell,
            createdAt := now, status := Status.running, exitCode := none,
            outputBuffer := [], readCursor := 0,
            timeoutDeadline := timeout }) :: r.sessions,
        nextId := r.nextId + 1 })

/-- One observable step in the life of a running session, as far as output
delivery is concerned: the process produces a chunk, or a caller polls
`read`. -/
inductive Event where
  | output (chunk : List Char) : Event
  | poll : Event

/-- Run a sequence of output/poll events against a session, collecting the
chunks the successive `read` calls return. -/
def runSession : Session → List Event → Session × List (List Char)
  | s, [] => (s, [])
  | s, Event.output c :: evs => runSession (s.appendOutput c) evs
  | s, Event.poll :: evs =>
      let r := s.read
      let rest := runSession r.2 evs
      (rest.1, r.1.1 :: rest.2)

/-- The bytes the process wrote during a sequence of events. -/
def written : List Event → List Char
  | [] => []
  | Event.output c :: evs => c ++ written evs
  | Event.poll :: evs => written evs

/-- Concatenation of the chunks returned by successive reads. -/
def concatChunks : List (List Char) → List Char
  | [] => []
  | c :: cs => c ++ concatChunks cs

/-! ## Spec-side field-shape predicates

These transcribe the request-shape table of the spec's section 6: a
required string field, a required number field, a required array of
strings, an optional number field, an optional string field. -/

/-- The object has this field and it is a string. -/
def reqString (o : Option JsonValue) : Bool :=
  match o with
  | some (JsonValue.str _) => true
  | _ => false

/-- The object has this field and it is a number. -/
def reqNumber (o : Option JsonValue) : Bool :=
  match o with
  | some (JsonValue.num _) => true
  | _ => false

/-- The object has this field and it is a list of strings. -/
def reqStringList (o : Option JsonValue) : Bool :=
  match o with
  | some (JsonValue.arr xs) => xs.all isStrVal
  | _ => false

/-- The field is absent, or present and a number. -/
def optNumber (o : Option JsonValue) : Bool :=
  match o with
  | none => true
  | some (JsonValue.num _) => true
  | _ => false

/-- The field is absent, or present and a string. -/
def optString (o : Option JsonValue) : Bool :=
  match o with
  | none => true
  | some (JsonValue.str _) => true
  | _ => false

/-- Spec shape of an execute-command request: required `command: string`,
optional `timeout_ms: number`, optional `shell: string`. -/
def specExecuteShape (fields : List (String × JsonValue)) : Bool :=
  reqString (lookupField "command" fields) &&
  optNumber (lookupField "timeout_ms" fields) &&
  optString (lookupField "shell" fields)

/-- Spec shape of the pid-carrying requests: required `pid: number` and
nothing else. -/
def specPidShape (fields : List (String × JsonValue)) : Bool :=
  reqNumber (lookupField "pid" fields)

/-- Spec shape of the block/unblock requests: required `command: string`
and nothing else. -/
def specCommandShape (fields : List (String × JsonValue)) : Bool :=
  reqString (lookupField "command" fields)

/-- Spec shape of the single-path filesystem requests. -/
def specPathShape (fields : List (String × JsonValue)) : Bool :=
  reqString (lookupField "path" fields)

/-- Spec shape of the read-multiple-files request: a list of string
paths. -/
def specPathsShape (fields : List (String × JsonValue)) : Bool :=
  reqStringList (lookupField "paths" fields)

/-- Spec shape of the write-file request: a path/content pair of
strings. -/
def specWriteShape (fields : List (String × JsonValue)) : Bool :=
  reqString (lookupField "path" fields) &&
  reqString (lookupField "content" fields)

/-- Spec shape of the move-file request: a source/destination pair of
strings. -/
def specMoveShape (fields : List (String × JsonValue)) : Bool :=
  reqString (lookupField "source" fields) &&
  reqString (lookupField "destination" fields)

/-! ## Helper lemmas about field checking -/

lemma checkField_req_string (fields : List (String × JsonValue)) (name : String) :
    checkField fields (name, ZodType.zstring, false) = reqString (lookupField name fields) := by
  unfold checkField reqString
  cases lookupField name fields with
  | none => rfl
  | some v => cases v <;> rfl

lemma checkField_req_number (fields : List (String × JsonValue)) (name : String) :
    checkField fields (name, ZodType.znumber, false) = reqNumber (lookupField name fields) := by
  unfold checkField reqNumber
  cases lookupField name fields with
  | none => rfl
  | some v => cases v <;> rfl

lemma checkField_req_stringArray (fields : List (String × JsonValue)) (name : String) :
    checkField fields (name, ZodType.zstringArray, false) = reqStringList (lookupField name fields) := by
  unfold checkField reqStringList
  cases lookupField name fields with
  | none => rfl
  | some v => cases v <;> rfl

lemma checkField_opt_number (fields : List (String × JsonValue)) (name : String) :
    checkField fields (name, ZodType.znumber, true) = optNumber (lookupField name fields) := by
  unfold checkField optNumber
  cases lookupField name fields with
  | none => rfl
  | some v => cases v <;> rfl

lemma checkField_opt_string (fields : List (String × JsonValue)) (name : String) :
    checkField fields (name, ZodType.zstring, true) = optString (lookupField name fields) := by
  unfold checkField optString
  cases lookupField name fields with
  | none => rfl
  | some v => cases v <;> rfl

lemma lookupField_of_no_key (n : String) (l : List (String × JsonValue))
    (h : ∀ p ∈ l, p.1 ≠ n) : lookupField n l = none := by
  induction l with
  | nil => rfl
  | cons p l ih =>
      unfold lookupField
      rw [if_neg (h p (List.mem_cons_self p l))]
      exact ih (fun q hq => h q (List.mem_cons_of_mem p hq))

lemma lookupField_append_of_no_key (n : String) (a b : List (String × JsonValue))
    (hb : ∀ p ∈ b, p.1 ≠ n) : lookupField n (a ++ b) = lookupField n a := by
  induction a with
  | nil =>
      rw [List.nil_append, lookupField_of_no_key n b hb]
      rfl
  | cons p a ih =>
      simp only [List.cons_append, lookupField, List.append_eq]
      rw [ih]

lemma validateObj_append_extra (specs : ZodObjectSchema)
    (fields extra : List (String × JsonValue))
    (h : ∀ p ∈ extra, p.1 ∉ declaredKeys specs) :
    validateObj specs (JsonValue.obj (fields ++ extra)) =
    validateObj specs (JsonValue.obj fields) := by
  induction specs with
  | nil => rfl
  | cons spec specs ih =>
      have hhead : ∀ p ∈ extra, p.1 ≠ spec.1 := by
        intro p hp hEq
        apply h p hp
        rw [hEq]
        exact List.mem_cons_self _ _
      have htail : ∀ p ∈ extra, p.1 ∉ declaredKeys specs := by
        intro p hp hmem
        exact h p hp (List.mem_cons_of_mem _ hmem)
      have hcf : checkField (fields ++ extra) spec = checkField fields spec := by
        unfold checkField
        rw [lookupField_append_of_no_key spec.1 fields extra hhead]
      have ih' : specs.all (checkField (fields ++ extra)) =
          specs.all (checkField fields) := ih htail
      show (spec :: specs).all (checkField (fields ++ extra)) =
        (spec :: specs).all (checkField fields)
      simp only [List.all_cons, hcf, ih']

/-- Invariant behind the gapless-delivery property: running a session that
starts `running` with a valid cursor through any interleaving of output
arrival and polls keeps it `running` with a valid cursor, grows the buffer
by exactly what was written, and keeps delivered-plus-undelivered equal to
pending-plus-written. -/
lemma runSession_delivery (evs : List Event) (s : Session)
    (hrun : s.status = Status.running)
    (hc : s.readCursor ≤ s.outputBuffer.length) :
    (runSession s evs).1.status = Status.running ∧
    (runSession s evs).1.readCursor ≤ (runSession s evs).1.outputBuffer.length ∧
    (runSession s evs).1.outputBuffer = s.outputBuffer ++ written evs ∧
    concatChunks (runSession s evs).2 ++
        (runSession s evs).1.outputBuffer.drop (runSession s evs).1.readCursor =
      s.outputBuffer.drop s.readCursor ++ written evs := by
  induction evs generalizing s hrun hc with
  | nil =>
      refine ⟨hrun, hc, by simp [runSession, written], ?_⟩
      simp [runSession, written, concatChunks]
  | cons e evs ih =>
      cases e with
      | output c =>
          have hs' : s.appendOutput c =
              { s with outputBuffer := s.outputBuffer ++ c } := by
            simp [Session.appendOutput, hrun, Status.isTerminal]
          have hrun' : (s.appendOutput c).status = Status.running := by
            rw [hs']
            exact hrun
          have hc' : (s.appendOutput c).readCursor ≤
              (s.appendOutput c).outputBuffer.length := by
            rw [hs']
            simp only [List.length_append]
            exact Nat.le_trans hc (Nat.le_add_right _ _)
          obtain ⟨h1, h2, h3, h4⟩ := ih (s.appendOutput c) hrun' hc'
          have hstep : runSession s (Event.output c :: evs) =
              runSession (s.appendOutput c) evs := rfl
          rw [hstep]
          refine ⟨h1, h2, ?_, ?_⟩
          · rw [h3, hs']
            simp [written, List.append_assoc]
          · rw [h4, hs']
            simp only [written]
            rw [List.drop_append_of_le_length hc, List.append_assoc]
      | poll =>
          have hrun' : s.read.2.status = Status.running := hrun
          have hc' : s.read.2.readCursor ≤ s.read.2.outputBuffer.length :=
            Nat.le_refl _
          obtain ⟨h1, h2, h3, h4⟩ := ih s.read.2 hrun' hc'
          have hstep : runSession s (Event.poll :: evs) =
              ((runSession s.read.2 evs).1,
                s.read.1.1 :: (runSession s.read.2 evs).2) := rfl
          rw [hstep]
          refine ⟨h1, h2, ?_, ?_⟩
          · rw [h3]
            simp [Session.read, written]
          · simp only [concatChunks, List.append_assoc]
            rw [h4]
            simp [Session.read, written, List.drop_length]

/-! ## Claim theorems -/

/-- C2: the execute-command request contract validates an input object if
and only if it has a `command` field that is a string, an absent-or-number
`timeout_ms` field, and an absent-or-string `shell` field; no other field
is required. -/
theorem C2_executeCommandSchemaShape (fields : List (String × JsonValue)) :
    validateObj ExecuteCommandArgsSchema (JsonValue.obj fields) =
      specExecuteShape fields := by
  simp [validateObj, ExecuteCommandArgsSchema, specExecuteShape,
    checkField_req_string, checkField_opt_number, checkField_opt_string,
    Bool.and_assoc]

/-- C3: the read-output, force-terminate and kill-process request
contracts each validate an input object if and only if it has a `pid`
field that is a number; nothing else is required or optional. -/
theorem C3_pidSchemasShape (fields : List (String × JsonValue)) :
    validateObj ReadOutputArgsSchema (JsonValue.obj fields) = specPidShape fields ∧
    validateObj ForceTerminateArgsSchema (JsonValue.obj fields) = specPidShape fields ∧
    validateObj KillProcessArgsSchema (JsonValue.obj fields) = specPidShape fields := by
  refine ⟨?_, ?_, ?_⟩ <;>
    simp [validateObj, ReadOutputArgsSchema, ForceTerminateArgsSchema,
      KillProcessArgsSchema, specPidShape, checkField_req_number]

/-- C4: the block-command and unblock-command request contracts each
validate an input object if and only if it has a `command` field that is a
string; nothing else is required or optional. -/
theorem C4_blocklistSchemasShape (fields : List (String × JsonValue)) :
    validateObj BlockCommandArgsSchema (JsonValue.obj fields) = specCommandShape fields ∧
    validateObj UnblockCommandArgsSchema (JsonValue.obj fields) = specCommandShape fields := by
  refine ⟨?_, ?_⟩ <;>
    simp [validateObj, BlockCommandArgsSchema, UnblockCommandArgsSchema,
      specCommandShape, checkField_req_string]

/-- C7: the filesystem request contracts accept exactly the boundary's
data shapes — a single string `path` (read file, create directory, list
directory, get file info), a list of string `paths` (read multiple files),
a string `path`/`content` pair (write file), and a string
`source`/`destination` pair (move file); each validates if and only if its
required string-shaped fields are present. -/
theorem C7_filesystemSchemasShape (fields : List (String × JsonValue)) :
    validateObj ReadFileArgsSchema (JsonValue.obj fields) = specPathShape fields ∧
    validateObj CreateDirectoryArgsSchema (JsonValue.obj fields) = specPathShape fields ∧
    validateObj ListDirectoryArgsSchema (JsonValue.obj fields) = specPathShape fields ∧
    validateObj GetFileInfoArgsSchema (JsonValue.obj fields) = specPathShape fields ∧
    validateObj ReadMultipleFilesArgsSchema (JsonValue.obj fields) = specPathsShape fields ∧
    validateObj WriteFileArgsSchema (JsonValue.obj fields) = specWriteShape fields ∧
    validateObj MoveFileArgsSchema (JsonValue.obj fields) = specMoveShape fields := by
  refine ⟨?_, ?_, ?_, ?_, ?_, ?_, ?_⟩ <;>
    simp [validateObj, ReadFileArgsSchema, CreateDirectoryArgsSchema,
      ListDirectoryArgsSchema, GetFileInfoArgsSchema,
      ReadMultipleFilesArgsSchema, WriteFileArgsSchema, MoveFileArgsSchema,
      specPathShape, specPathsShape, specWriteShape, specMoveShape,
      checkField_req_string, checkField_req_stringArray]

/-- C9: the numeric request fields are unconstrained beyond being numbers
— every rational value, negative, zero or non-integer alike, passes as
`timeout_ms` of an execute request and as `pid` of the read-output,
force-terminate and kill-process requests. -/
theorem C9_numericFieldsUnconstrained (q : Rat) (c : String) :
    validateObj ExecuteCommandArgsSchema
        (JsonValue.obj [("command", JsonValue.str c),
                        ("timeout_ms", JsonValue.num q)]) = true ∧
    validateObj ReadOutputArgsSchema
        (JsonValue.obj [("pid", JsonValue.num q)]) = true ∧
    validateObj ForceTerminateArgsSchema
        (JsonValue.obj [("pid", JsonValue.num q)]) = true ∧
    validateObj KillProcessArgsSchema
        (JsonValue.obj [("pid", JsonValue.num q)]) = true :=
  ⟨rfl, rfl, rfl, rfl⟩

/-- C10: the set-config-value request contract constrains only the key —
for every JSON value `v` whatsoever, an input with a string `key` and
`value := v` validates successfully. -/
theorem C10_setConfigValueUnconstrained (k : String) (v : JsonValue) :
    validateObj SetConfigValueArgsSchema
      (JsonValue.obj [("key", JsonValue.str k), ("value", v)]) = true := rfl

/-- C1 counterexample: an execute request whose `command` is the empty
string does pass the request-contract check — `ExecuteCommandArgsSchema`
constrains `command` only to be a string, so the claim that such a request
never passes validation is false. -/
theorem C1_counterexample_emptyCommandPassesSchema :
    validateObj ExecuteCommandArgsSchema
      (JsonValue.obj [("command", JsonValue.str "")]) = true := rfl

/-- C1 amended: the request-contract check accepts an execute request with
an empty `command` (the schema only requires a string); the
`InvalidArgument` rejection of an empty command happens in the Session
Registry's `create` operation, before any session record is inserted. -/
theorem C1_amended_emptyCommandRejectedAtCreate (r : Registry) (sh : String)
    (t : Option Nat) (now : Nat) :
    validateObj ExecuteCommandArgsSchema
        (JsonValue.obj [("command", JsonValue.str "")]) = true ∧
    Registry.create r "" sh t now = Except.error SMError.invalidArgument :=
  ⟨rfl, rfl⟩

/-- C8: every request contract strips unknown keys instead of rejecting
them — appending fields whose names are not declared by the schema never
changes the validation verdict — and the list-sessions and get-config
contracts accept every object whatsoever. -/
theorem C8_unknownKeysStripped :
    (∀ specs ∈ allSchemas, ∀ fields extra : List (String × JsonValue),
        (∀ p ∈ extra, p.1 ∉ declaredKeys specs) →
        validateObj specs (JsonValue.obj (fields ++ extra)) =
          validateObj specs (JsonValue.obj fields)) ∧
    (∀ fields : List (String × JsonValue),
        validateObj ListSessionsArgsSchema (JsonValue.obj fields) = true ∧
        validateObj GetConfigArgsSchema (JsonValue.obj fields) = true) :=
  ⟨fun specs _ fields extra h => validateObj_append_extra specs fields extra h,
   fun _ => ⟨rfl, rfl⟩⟩

/-- Witness data for the unknown-key property: a well-formed execute
request plus one undeclared field. -/
theorem C8_unknownKeysStripped_witness :
    validateObj ExecuteCommandArgsSchema
        (JsonValue.obj ([("command", JsonValue.str "ls")] ++
          [("verbose", JsonValue.bool true)])) =
      validateObj ExecuteCommandArgsSchema
        (JsonValue.obj [("command", JsonValue.str "ls")]) ∧
    validateObj ListSessionsArgsSchema
        (JsonValue.obj [("verbose", JsonValue.bool true)]) = true :=
  ⟨C8_unknownKeysStripped.1 ExecuteCommandArgsSchema (by decide)
      [("command", JsonValue.str "ls")] [("verbose", JsonValue.bool true)]
      (by decide),
   (C8_unknownKeysStripped.2 [("verbose", JsonValue.bool true)]).1⟩

/-- C5: a session's status only moves forward along the state machine —
every successful `transition` starts from `running` and lands in one of
the four terminal states, every such move from `running` succeeds, and
every `transition` out of a terminal state fails with
`InvalidTransition`. -/
theorem C5_statusMovesForwardOnly (s : Session) (new : Status) (code : Option Int) :
    (∀ s', s.transition new code = Except.ok s' →
        s.status = Status.running ∧ new.isTerminal = true ∧ s'.status = new) ∧
    (s.status = Status.running → new.isTerminal = true →
        s.transition new code =
          Except.ok { s with status := new, exitCode := code }) ∧
    (s.status.isTerminal = true →
        s.transition new code = Except.error SMError.invalidTransition) := by
  refine ⟨?_, ?_, ?_⟩
  · intro s' h
    unfold Session.transition at h
    by_cases ha : allowedTransition s.status new = true
    · rw [if_pos ha] at h
      injection h with h'
      subst h'
      cases hstatus : s.status <;> cases new <;>
        simp_all [allowedTransition, Status.isTerminal]
    · rw [if_neg ha] at h
      exact Except.noConfusion h
  · intro hr ht
    have ha : allowedTransition s.status new = true := by
      rw [hr]
      cases new <;> simp_all [allowedTransition, Status.isTerminal]
    unfold Session.transition
    rw [if_pos ha]
  · intro ht
    have ha : allowedTransition s.status new = false := by
      cases hstatus : s.status <;> cases new <;>
        simp_all [allowedTransition, Status.isTerminal]
    unfold Session.transition
    simp [ha]

/-- A session that is still running, used as witness data. -/
def liveSession : Session :=
  { sid := 7, command := "echo hello", shell := "bash", createdAt := 0,
    status := Status.running, exitCode := none,
    outputBuffer := ['h', 'i'], readCursor := 0, timeoutDeadline := none }

/-- A session already in a terminal state, used as witness data. -/
def doneSession : Session :=
  { sid := 8, command := "echo hello", shell := "bash", createdAt := 0,
    status := Status.completed, exitCode := some 0,
    outputBuffer := ['h', 'i'], readCursor := 2, timeoutDeadline := none }

/-- Witness data for the state-machine property: a running session moves
to `completed`, a completed one refuses to move again. -/
theorem C5_statusMovesForwardOnly_witness :
    liveSession.transition Status.completed (some 0) =
      Except.ok { liveSession with status := Status.completed, exitCode := some 0 } ∧
    doneSession.transition Status.terminated none =
      Except.error SMError.invalidTransition :=
  ⟨(C5_statusMovesForwardOnly liveSession Status.completed (some 0)).2.1 rfl rfl,
   (C5_statusMovesForwardOnly doneSession Status.terminated none).2.2 rfl⟩

/-- C6: reads never lose or duplicate output — each `read` returns exactly
the buffer from `readCursor` onward together with the current status and
advances `readCursor` by exactly the returned length; and over every
interleaving of output arrival and polls, starting from a fresh running
session, the chunks returned by successive reads concatenate, with the
still-undelivered suffix, to exactly the bytes the process wrote. -/
theorem C6_gaplessDelivery (s : Session) (evs : List Event)
    (hrun : s.status = Status.running)
    (hc : s.readCursor ≤ s.outputBuffer.length) :
    (s.read.1.1 = s.outputBuffer.drop s.readCursor ∧
     s.read.1.2 = s.status ∧
     s.read.2.readCursor = s.readCursor + s.read.1.1.length) ∧
    (s.readCursor = 0 → s.outputBuffer = [] →
      concatChunks (runSession s evs).2 ++
          (runSession s evs).1.outputBuffer.drop (runSession s evs).1.readCursor =
        written evs ∧
      (runSession s evs).1.outputBuffer = written evs) := by
  constructor
  · refine ⟨rfl, rfl, ?_⟩
    show s.outputBuffer.length =
      s.readCursor + (s.outputBuffer.drop s.readCursor).length
    rw [List.length_drop]
    omega
  · intro h0 hb
    obtain ⟨h1, h2, h3, h4⟩ := runSession_delivery evs s hrun hc
    constructor
    · rw [h4, h0, hb]
      rfl
    · rw [h3, hb]
      rfl

/-- A freshly created running session with nothing written and nothing
read yet, used as witness data. -/
def freshSession : Session :=
  { sid := 9, command := "echo hello", shell := "bash", createdAt := 0,
    status := Status.running, exitCode := none, outputBuffer := [],
    readCursor := 0, timeoutDeadline := none }

/-- A sample interleaving of output arrival and polls. -/
def sampleEvents : List Event :=
  [Event.output ['h', 'e'], Event.poll, Event.output ['y', '!'], Event.poll]

/-- Witness data for the gapless-delivery property at a concrete session
and event interleaving. -/
theorem C6_gaplessDelivery_witness :
    (freshSession.read.1.1 =
        freshSession.outputBuffer.drop freshSession.readCursor ∧
     freshSession.read.1.2 = freshSession.status ∧
     freshSession.read.2.readCursor =
        freshSession.readCursor + freshSession.read.1.1.length) ∧
    (freshSession.readCursor = 0 → freshSession.outputBuffer = [] →
      concatChunks (runSession freshSession sampleEvents).2 ++
          (runSession freshSession sampleEvents).1.outputBuffer.drop
            (runSession freshSession sampleEvents).1.readCursor =
        written sampleEvents ∧
      (runSession freshSession sampleEvents).1.outputBuffer =
        written sampleEvents) :=
  C6_gaplessDelivery freshSession sampleEvents rfl (Nat.le_refl 0)
